import Mathlib

/-
Verification of the pansens sensitivity converter (src/main.py).

Python floats are modelled as exact rationals (ℚ): every constant in the
Windows tick table is a dyadic rational, so the table lookups, the KDE
affine map and the clamp are exact in the model.  Python exceptions are
modelled with Except: ValueError raised by the validating constructors
becomes PanError.validationError, the TypeError raised by the isinstance
guards becomes PanError.typeMismatchError, and a KeyError from a dict
lookup becomes PanError.keyError.  The class-level dict WindowsPlatform._tick_map
is modelled as an ordered association list, because Python dicts iterate
in insertion order and the behaviour of min over dict.items depends on
that order.  Python's min with a key function returns the first element
attaining the minimal key, which the fold in minScan reproduces: a later
element replaces the current best only when its key is strictly smaller.
-/

/-- Error kinds of the program: ValueError at construction,
TypeError from the isinstance guards, KeyError from a dict miss. -/
inductive PanError where
  | validationError
  | typeMismatchError
  | keyError
deriving DecidableEq, Repr

/-- IntermediateSensitivity: the neutral pivot, a bare multiplier. -/
structure IntermediateSensitivity where
  multiplier : ℚ
deriving DecidableEq, Repr

/-- The Sensitivity variants: WindowsSensitivity carries a tick,
KDESensitivity carries a pointer-acceleration value. -/
inductive Sensitivity where
  | windows (tick : ℤ)
  | kde (value : ℚ)
deriving DecidableEq, Repr

/-- WindowsSensitivity.__init__: raises ValueError unless 1 <= tick <= 20. -/
def WindowsSensitivity.init (tick : ℤ) : Except PanError Sensitivity :=
  if ¬(1 ≤ tick ∧ tick ≤ 20) then .error .validationError
  else .ok (.windows tick)

/-- KDESensitivity.__init__: raises ValueError unless -1.0 <= value <= 1.0. -/
def KDESensitivity.init (value : ℚ) : Except PanError Sensitivity :=
  if ¬(-1 ≤ value ∧ value ≤ 1) then .error .validationError
  else .ok (.kde value)

/-- WindowsPlatform._tick_map: tick to multiplier, in insertion order. -/
def WindowsPlatform.tick_map : List (ℤ × ℚ) :=
  [(1, 1/32), (2, 1/16), (3, 1/8), (4, 2/8), (5, 3/8),
   (6, 4/8), (7, 5/8), (8, 6/8), (9, 7/8), (10, 1),
   (11, 5/4), (12, 3/2), (13, 7/4), (14, 2), (15, 9/4),
   (16, 5/2), (17, 11/4), (18, 3), (19, 13/4), (20, 7/2)]

/-- The fold inside Python's min(items, key=k): the running best is replaced
only when the new element's key is strictly smaller, so the first element
attaining the minimum wins. -/
def minScan {α : Type} (f : α → ℚ) (x : α) (xs : List α) : α :=
  xs.foldl (fun best y => if f y < f best then y else best) x

/-- Python's min(iterable, key=k): ValueError (none) on an empty iterable,
otherwise the first element attaining the minimal key. -/
def min_by {α : Type} (f : α → ℚ) : List α → Option α
  | [] => none
  | x :: xs => some (minScan f x xs)

/-- Dict lookup self._tick_map[tick]: the value at the first matching key,
none (a KeyError) when the key is absent. -/
def dict_get (k : ℤ) : List (ℤ × ℚ) → Option ℚ
  | [] => none
  | kv :: rest => if k = kv.1 then some kv.2 else dict_get k rest

/-- WindowsPlatform.to_intermediate: isinstance guard, then exact dict lookup. -/
def WindowsPlatform.to_intermediate (sensitivity : Sensitivity) :
    Except PanError IntermediateSensitivity :=
  match sensitivity with
  | .windows tick =>
      match dict_get tick WindowsPlatform.tick_map with
      | some m => .ok ⟨m⟩
      | none => .error .keyError
  | _ => .error .typeMismatchError

/-- The key function of the min call in from_intermediate: the absolute
difference between a table entry's multiplier and the given multiplier. -/
def tick_dist (mval : ℚ) (kv : ℤ × ℚ) : ℚ := |kv.2 - mval|

/-- WindowsPlatform.from_intermediate: nearest tick to the multiplier via
min over the table items, then construct a WindowsSensitivity. -/
def WindowsPlatform.from_intermediate (sensitivity : IntermediateSensitivity) :
    Except PanError Sensitivity :=
  match min_by (tick_dist sensitivity.multiplier) WindowsPlatform.tick_map with
  | some closest => WindowsSensitivity.init closest.1
  | none => .error .validationError

/-- KDEPlatform.to_intermediate: isinstance guard, then multiplier = 1.0 + value. -/
def KDEPlatform.to_intermediate (sensitivity : Sensitivity) :
    Except PanError IntermediateSensitivity :=
  match sensitivity with
  | .kde value => .ok ⟨1 + value⟩
  | _ => .error .typeMismatchError

/-- KDEPlatform.from_intermediate: value = multiplier - 1.0, clamped to
[-1.0, 1.0], then construct a KDESensitivity. -/
def KDEPlatform.from_intermediate (sensitivity : IntermediateSensitivity) :
    Except PanError Sensitivity :=
  KDESensitivity.init (max (-1) (min 1 (sensitivity.multiplier - 1)))

/-- The two platforms instantiated by main. -/
inductive Platform where
  | windows
  | kde
deriving DecidableEq, Repr

/-- Dispatch of to_intermediate over the platform object. -/
def Platform.to_intermediate : Platform → Sensitivity → Except PanError IntermediateSensitivity
  | .windows, s => WindowsPlatform.to_intermediate s
  | .kde, s => KDEPlatform.to_intermediate s

/-- Dispatch of from_intermediate over the platform object. -/
def Platform.from_intermediate : Platform → IntermediateSensitivity → Except PanError Sensitivity
  | .windows, s => WindowsPlatform.from_intermediate s
  | .kde, s => KDEPlatform.from_intermediate s

/-- convert_sensitivity: to_intermediate on the source platform, then
from_intermediate on the destination; failures propagate unchanged. -/
def convert_sensitivity (from_platform to_platform : Platform)
    (sensitivity : Sensitivity) : Except PanError Sensitivity :=
  (from_platform.to_intermediate sensitivity).bind to_platform.from_intermediate

/-
Helper lemmas about the fold implementing Python's min(items, key=k).
-/

theorem minScan_nil {α : Type} (f : α → ℚ) (x : α) : minScan f x [] = x := rfl

theorem min_by_cons {α : Type} (f : α → ℚ) (x : α) (xs : List α) :
    min_by f (x :: xs) = some (minScan f x xs) := rfl

theorem minScan_cons {α : Type} (f : α → ℚ) (x y : α) (ys : List α) :
    minScan f x (y :: ys) = minScan f (if f y < f x then y else x) ys := rfl

/-- The scan result is one of the scanned elements. -/
theorem minScan_mem {α : Type} (f : α → ℚ) (x : α) (xs : List α) :
    minScan f x xs ∈ x :: xs := by
  induction xs generalizing x with
  | nil =>
    rw [minScan_nil]
    exact List.mem_cons_self x []
  | cons y ys ih =>
    rw [minScan_cons]
    by_cases hc : f y < f x
    · rw [if_pos hc]
      rcases List.mem_cons.mp (ih y) with h | h
      · rw [h]
        exact List.mem_cons_of_mem x (List.mem_cons_self y ys)
      · exact List.mem_cons_of_mem x (List.mem_cons_of_mem y h)
    · rw [if_neg hc]
      rcases List.mem_cons.mp (ih x) with h | h
      · rw [h]
        exact List.mem_cons_self x (y :: ys)
      · exact List.mem_cons_of_mem x (List.mem_cons_of_mem y h)

/-- The scan result minimises f over the scanned elements. -/
theorem minScan_le {α : Type} (f : α → ℚ) (x : α) (xs : List α) :
    ∀ y ∈ x :: xs, f (minScan f x xs) ≤ f y := by
  induction xs generalizing x with
  | nil =>
    intro y hy
    rw [minScan_nil, List.mem_singleton.mp hy]
  | cons y ys ih =>
    intro z hz
    rw [minScan_cons]
    by_cases hc : f y < f x
    · rw [if_pos hc]
      rcases List.mem_cons.mp hz with h | h'
      · rw [h]
        exact le_of_lt (lt_of_le_of_lt (ih y y (List.mem_cons_self y ys)) hc)
      · exact ih y z h'
    · rw [if_neg hc]
      rcases List.mem_cons.mp hz with h | h'
      · rw [h]
        exact ih x x (List.mem_cons_self x ys)
      · rcases List.mem_cons.mp h' with h'' | h''
        · rw [h'']
          exact le_trans (ih x x (List.mem_cons_self x ys)) (not_lt.mp hc)
        · exact ih x z (List.mem_cons_of_mem x h'')

/-- The scan keeps the seed on ties: it only moves to a strictly better element. -/
theorem minScan_eq_or_lt {α : Type} (f : α → ℚ) (x : α) (xs : List α) :
    minScan f x xs = x ∨ f (minScan f x xs) < f x := by
  induction xs generalizing x with
  | nil => exact Or.inl (minScan_nil f x)
  | cons y ys ih =>
    rw [minScan_cons]
    by_cases hc : f y < f x
    · rw [if_pos hc]
      rcases ih y with h | h
      · right
        rw [h]
        exact hc
      · exact Or.inr (lt_trans h hc)
    · rw [if_neg hc]
      exact ih x

/-- On a list strictly sorted by the index g, the scan returns the element of
least index among those attaining the minimal f: first-encountered wins ties,
exactly as Python's min does. -/
theorem minScan_first {α : Type} (g : α → ℤ) (f : α → ℚ) (x : α) (xs : List α)
    (hs : (x :: xs).Pairwise (fun a b => g a < g b)) :
    ∀ z ∈ x :: xs, f z = f (minScan f x xs) → g (minScan f x xs) ≤ g z := by
  induction xs generalizing x with
  | nil =>
    intro z hz _
    rw [minScan_nil, List.mem_singleton.mp hz]
  | cons y ys ih =>
    rw [List.pairwise_cons] at hs
    obtain ⟨hxall, hs'⟩ := hs
    have hyall := (List.pairwise_cons.mp hs').1
    have hys := (List.pairwise_cons.mp hs').2
    intro z hz hfz
    rw [minScan_cons] at hfz ⊢
    by_cases hc : f y < f x
    · rw [if_pos hc] at hfz ⊢
      have hsy : (y :: ys).Pairwise (fun a b => g a < g b) :=
        List.pairwise_cons.mpr ⟨hyall, hys⟩
      rcases List.mem_cons.mp hz with h | h'
      · -- z = x cannot attain the minimum: the scan stays at most f y < f x
        exfalso
        have h1 : f (minScan f y ys) ≤ f y := minScan_le f y ys y (List.mem_cons_self y ys)
        rw [← hfz, h] at h1
        exact absurd (lt_of_le_of_lt h1 hc) (lt_irrefl (f x))
      · exact ih y hsy z h' hfz
    · rw [if_neg hc] at hfz ⊢
      have hsx : (x :: ys).Pairwise (fun a b => g a < g b) :=
        List.pairwise_cons.mpr ⟨fun b hb => hxall b (List.mem_cons_of_mem y hb), hys⟩
      rcases List.mem_cons.mp hz with h | h'
      · refine ih x hsx z ?_ hfz
        rw [h]
        exact List.mem_cons_self x ys
      · rcases List.mem_cons.mp h' with h'' | h''
        · -- z = y: the scan result is x itself, since a tie cannot move the scan
          rcases minScan_eq_or_lt f x ys with he | hl
          · rw [he, h'']
            exact le_of_lt (hxall y (List.mem_cons_self y ys))
          · exfalso
            rw [← hfz, h''] at hl
            exact hc hl
        · exact ih x hsx z (List.mem_cons_of_mem x h'') hfz

/-
Facts about the concrete Windows table.
-/

/-- The table lists its ticks in strictly ascending order. -/
theorem tick_map_sorted :
    WindowsPlatform.tick_map.Pairwise (fun a b => a.1 < b.1) := by
  norm_num [WindowsPlatform.tick_map, List.pairwise_cons]

/-- Every tick in the table lies in the legal range [1, 20]. -/
theorem tick_map_range :
    ∀ p ∈ WindowsPlatform.tick_map, 1 ≤ p.1 ∧ p.1 ≤ 20 := by
  norm_num [WindowsPlatform.tick_map]

/-- A constructor call inside the legal Windows range succeeds and stores the tick. -/
theorem windows_init_ok (t : ℤ) (h1 : 1 ≤ t) (h2 : t ≤ 20) :
    WindowsSensitivity.init t = .ok (.windows t) := by
  unfold WindowsSensitivity.init
  rw [if_neg (not_not_intro ⟨h1, h2⟩)]

/-- A constructor call inside the legal KDE range succeeds and stores the value. -/
theorem kde_init_ok (v : ℚ) (h1 : -1 ≤ v) (h2 : v ≤ 1) :
    KDESensitivity.init v = .ok (.kde v) := by
  unfold KDESensitivity.init
  rw [if_neg (not_not_intro ⟨h1, h2⟩)]

/-- WindowsPlatform.from_intermediate constructs from the first table entry at
minimal absolute distance from the given multiplier. -/
theorem from_intermediate_spec (s : IntermediateSensitivity) :
    ∃ p, p ∈ WindowsPlatform.tick_map ∧
      WindowsPlatform.from_intermediate s = WindowsSensitivity.init p.1 ∧
      (∀ q ∈ WindowsPlatform.tick_map,
        tick_dist s.multiplier p ≤ tick_dist s.multiplier q) ∧
      (∀ q ∈ WindowsPlatform.tick_map,
        tick_dist s.multiplier q = tick_dist s.multiplier p → p.1 ≤ q.1) := by
  cases htm : WindowsPlatform.tick_map with
  | nil =>
    exact absurd htm (by simp [WindowsPlatform.tick_map])
  | cons x xs =>
    refine ⟨minScan (tick_dist s.multiplier) x xs, ?_, ?_, ?_, ?_⟩
    · exact minScan_mem (tick_dist s.multiplier) x xs
    · unfold WindowsPlatform.from_intermediate
      rw [htm, min_by_cons]
    · intro q hq
      exact minScan_le (tick_dist s.multiplier) x xs q hq
    · intro q hq heq
      have hp := tick_map_sorted
      rw [htm] at hp
      exact minScan_first Prod.fst (tick_dist s.multiplier) x xs hp q hq heq

/-- In a list pairwise-increasing in both components, any two members compare
consistently: a smaller first component forces a smaller second component,
and equal second components force equal first components. -/
theorem pairwise_lt_of_mem {l : List (ℤ × ℚ)}
    (hp : l.Pairwise (fun a b => a.1 < b.1 ∧ a.2 < b.2))
    {p q : ℤ × ℚ} (hmp : p ∈ l) (hmq : q ∈ l) :
    (p.1 < q.1 → p.2 < q.2) ∧ (p.2 = q.2 → p.1 = q.1) := by
  obtain ⟨i, hi, hig⟩ := List.mem_iff_getElem.mp hmp
  obtain ⟨j, hj, hjg⟩ := List.mem_iff_getElem.mp hmq
  rcases lt_trichotomy i j with hij | hij | hij
  · have h := List.pairwise_iff_getElem.mp hp i j hi hj hij
    rw [hig, hjg] at h
    exact ⟨fun _ => h.2, fun hq2 => absurd hq2 (ne_of_lt h.2)⟩
  · subst hij
    have hpq : p = q := by rw [← hig, ← hjg]
    constructor
    · intro hlt
      rw [hpq] at hlt
      exact absurd hlt (lt_irrefl q.1)
    · intro _
      rw [hpq]
  · have h := List.pairwise_iff_getElem.mp hp j i hj hi hij
    rw [hig, hjg] at h
    constructor
    · intro hlt
      exact absurd hlt (not_lt.mpr (le_of_lt h.1))
    · intro hq2
      exact absurd hq2.symm (ne_of_lt h.2)

/-- The table increases strictly in both the tick and the multiplier. -/
theorem tick_map_both_sorted :
    WindowsPlatform.tick_map.Pairwise (fun a b => a.1 < b.1 ∧ a.2 < b.2) := by
  norm_num [WindowsPlatform.tick_map, List.pairwise_cons]

set_option maxHeartbeats 4000000 in
/-- C1: for every integer t in [1, 20], building WindowsTick(t), applying the
Windows adapter toNeutral and then its fromNeutral returns WindowsTick(t). -/
theorem windows_round_trip (t : ℤ) (h1 : 1 ≤ t) (h2 : t ≤ 20) :
    (WindowsSensitivity.init t).bind (fun s =>
      (WindowsPlatform.to_intermediate s).bind WindowsPlatform.from_intermediate)
      = .ok (.windows t) := by
  interval_cases t <;>
    norm_num [WindowsSensitivity.init, WindowsPlatform.to_intermediate,
      WindowsPlatform.from_intermediate, WindowsPlatform.tick_map, dict_get,
      min_by, minScan, List.foldl, Except.bind, tick_dist, abs]

theorem windows_round_trip_witness :
    ((1:ℤ) ≤ 12 ∧ (12:ℤ) ≤ 20) ∧
    (WindowsSensitivity.init 12).bind (fun s =>
      (WindowsPlatform.to_intermediate s).bind WindowsPlatform.from_intermediate)
      = .ok (.windows 12) :=
  ⟨⟨by norm_num, by norm_num⟩, windows_round_trip 12 (by norm_num) (by norm_num)⟩

/-- C2: for every value v in [-1, 1], building KdeAccel(v), applying the KDE
adapter toNeutral and then its fromNeutral returns KdeAccel(v) exactly: the
affine map is inverted exactly and the clamp has no effect on this range. -/
theorem kde_round_trip (v : ℚ) (h1 : -1 ≤ v) (h2 : v ≤ 1) :
    (KDESensitivity.init v).bind (fun s =>
      (KDEPlatform.to_intermediate s).bind KDEPlatform.from_intermediate)
      = .ok (.kde v) := by
  rw [kde_init_ok v h1 h2]
  show KDEPlatform.from_intermediate ⟨1 + v⟩ = .ok (.kde v)
  unfold KDEPlatform.from_intermediate
  have he : max (-1) (min 1 ((1 : ℚ) + v - 1)) = v := by
    have h3 : (1 : ℚ) + v - 1 = v := by ring
    rw [h3, min_eq_right h2, max_eq_right h1]
  show KDESensitivity.init (max (-1) (min 1 ((1 : ℚ) + v - 1))) = .ok (.kde v)
  rw [he]
  exact kde_init_ok v h1 h2

theorem kde_round_trip_witness :
    (-(1:ℚ) ≤ 1/2 ∧ (1:ℚ)/2 ≤ 1) ∧
    (KDESensitivity.init (1/2)).bind (fun s =>
      (KDEPlatform.to_intermediate s).bind KDEPlatform.from_intermediate)
      = .ok (.kde (1/2)) :=
  ⟨⟨by norm_num, by norm_num⟩, kde_round_trip (1/2) (by norm_num) (by norm_num)⟩

/-- C3: construction fails with ValidationError exactly on native values outside
the platform range and succeeds otherwise, storing the given field unchanged;
in particular WindowsTick(0), WindowsTick(21), KdeAccel(-1.01), KdeAccel(1.01)
all fail. -/
theorem construction_validation :
    (∀ t : ℤ, ¬(1 ≤ t ∧ t ≤ 20) → WindowsSensitivity.init t = .error .validationError)
  ∧ (∀ t : ℤ, 1 ≤ t ∧ t ≤ 20 → WindowsSensitivity.init t = .ok (.windows t))
  ∧ (∀ v : ℚ, ¬(-1 ≤ v ∧ v ≤ 1) → KDESensitivity.init v = .error .validationError)
  ∧ (∀ v : ℚ, -1 ≤ v ∧ v ≤ 1 → KDESensitivity.init v = .ok (.kde v))
  ∧ WindowsSensitivity.init 0 = .error .validationError
  ∧ WindowsSensitivity.init 21 = .error .validationError
  ∧ KDESensitivity.init (-101/100) = .error .validationError
  ∧ KDESensitivity.init (101/100) = .error .validationError := by
  have hw : ∀ t : ℤ, ¬(1 ≤ t ∧ t ≤ 20) →
      WindowsSensitivity.init t = .error .validationError := by
    intro t h
    unfold WindowsSensitivity.init
    rw [if_pos h]
  have hk : ∀ v : ℚ, ¬(-1 ≤ v ∧ v ≤ 1) →
      KDESensitivity.init v = .error .validationError := by
    intro v h
    unfold KDESensitivity.init
    rw [if_pos h]
  refine ⟨hw, fun t h => windows_init_ok t h.1 h.2, hk,
    fun v h => kde_init_ok v h.1 h.2, hw 0 (by norm_num), hw 21 (by norm_num),
    hk (-101/100) (by norm_num), hk (101/100) (by norm_num)⟩

/-- C4: each adapter toNeutral raises TypeMismatchError exactly on the foreign
variant: the Windows adapter rejects every KdeAccel (in particular
KdeAccel(0.0)), the KDE adapter rejects every WindowsTick, and neither raises
TypeMismatchError on its own variant. -/
theorem to_intermediate_type_mismatch :
    (∀ v : ℚ, WindowsPlatform.to_intermediate (.kde v) = .error .typeMismatchError)
  ∧ (∀ t : ℤ, KDEPlatform.to_intermediate (.windows t) = .error .typeMismatchError)
  ∧ WindowsPlatform.to_intermediate (.kde 0) = .error .typeMismatchError
  ∧ (∀ t : ℤ, ∀ e : PanError, WindowsPlatform.to_intermediate (.windows t) = .error e →
      e ≠ .typeMismatchError)
  ∧ (∀ v : ℚ, ∀ e : PanError, KDEPlatform.to_intermediate (.kde v) = .error e →
      e ≠ .typeMismatchError) := by
  refine ⟨fun v => rfl, fun t => rfl, rfl, ?_, ?_⟩
  · intro t e he
    have heq : WindowsPlatform.to_intermediate (.windows t) =
        (match dict_get t WindowsPlatform.tick_map with
          | some m => Except.ok (⟨m⟩ : IntermediateSensitivity)
          | none => Except.error PanError.keyError) := rfl
    rw [heq] at he
    cases hd : dict_get t WindowsPlatform.tick_map with
    | some m =>
      rw [hd] at he
      simp at he
    | none =>
      rw [hd] at he
      have h2 : PanError.keyError = e := by
        injection he
      rw [← h2]
      decide
  · intro v e he
    have h2 : Except.ok (⟨1 + v⟩ : IntermediateSensitivity) = Except.error e := he
    simp at h2

/-- C5: when a multiplier is exactly equidistant from two different table
ticks, from_intermediate still returns a deterministic result: the least tick
among those at minimal distance, because the min scan keeps the first entry
in ascending tick order. -/
theorem from_intermediate_tie_break (m : ℚ) (t1 t2 : ℤ) (q1 q2 : ℚ)
    (h1 : (t1, q1) ∈ WindowsPlatform.tick_map)
    (h2 : (t2, q2) ∈ WindowsPlatform.tick_map)
    (hne : t1 ≠ t2)
    (heq : |q1 - m| = |q2 - m|) :
    ∃ t : ℤ, ∃ q : ℚ, (t, q) ∈ WindowsPlatform.tick_map
      ∧ WindowsPlatform.from_intermediate ⟨m⟩ = .ok (.windows t)
      ∧ (∀ p ∈ WindowsPlatform.tick_map, |q - m| ≤ |p.2 - m|)
      ∧ (∀ p ∈ WindowsPlatform.tick_map, |p.2 - m| = |q - m| → t ≤ p.1) := by
  obtain ⟨p, hmem, hres, hmin, hfirst⟩ := from_intermediate_spec ⟨m⟩
  obtain ⟨hr1, hr2⟩ := tick_map_range p hmem
  refine ⟨p.1, p.2, hmem, ?_, ?_, ?_⟩
  · rw [hres]
    exact windows_init_ok p.1 hr1 hr2
  · intro r hr
    have h3 := hmin r hr
    simpa [tick_dist] using h3
  · intro r hr hq
    refine hfirst r hr ?_
    simpa [tick_dist] using hq

theorem from_intermediate_tie_break_witness :
    ∃ t : ℤ, ∃ q : ℚ, (t, q) ∈ WindowsPlatform.tick_map
      ∧ WindowsPlatform.from_intermediate ⟨3/64⟩ = .ok (.windows t)
      ∧ (∀ p ∈ WindowsPlatform.tick_map, |q - 3/64| ≤ |p.2 - 3/64|)
      ∧ (∀ p ∈ WindowsPlatform.tick_map, |p.2 - 3/64| = |q - 3/64| → t ≤ p.1) :=
  from_intermediate_tie_break (3/64) 1 2 (1/32) (1/16)
    (by norm_num [WindowsPlatform.tick_map])
    (by norm_num [WindowsPlatform.tick_map])
    (by norm_num)
    (by norm_num)

/-- C6: for every multiplier m, the KDE fromNeutral returns KdeAccel carrying
m - 1 clamped to [-1, 1], and the construction inside never fails, because
the clamped value is always in the legal range. -/
theorem kde_from_intermediate_clamp (m : ℚ) :
    KDEPlatform.from_intermediate ⟨m⟩ = .ok (.kde (max (-1) (min 1 (m - 1)))) := by
  unfold KDEPlatform.from_intermediate
  exact kde_init_ok (max (-1) (min 1 (m - 1))) (le_max_left (-1) (min 1 (m - 1)))
    (max_le (by norm_num) (min_le_left 1 (m - 1)))

/-- C7: for every multiplier m, the Windows fromNeutral succeeds and returns
a tick in [1, 20]: the WindowsTick construction inside never raises
ValidationError, because the scan result is always a table entry. -/
theorem windows_from_intermediate_total (m : ℚ) :
    ∃ t : ℤ, WindowsPlatform.from_intermediate ⟨m⟩ = .ok (.windows t)
      ∧ 1 ≤ t ∧ t ≤ 20 := by
  obtain ⟨p, hmem, hres, -, -⟩ := from_intermediate_spec ⟨m⟩
  obtain ⟨hr1, hr2⟩ := tick_map_range p hmem
  refine ⟨p.1, ?_, hr1, hr2⟩
  rw [hres]
  exact windows_init_ok p.1 hr1 hr2

/-- C8: converting KdeAccel(-1.0) from KDE to Windows yields WindowsTick(1):
the construction succeeds, the KDE toNeutral maps -1 to multiplier 0, which
is below the table minimum 1/32, and the nearest tick is 1. -/
theorem convert_kde_min_to_windows :
    KDESensitivity.init (-1) = .ok (.kde (-1))
  ∧ KDEPlatform.to_intermediate (.kde (-1)) = .ok ⟨0⟩
  ∧ convert_sensitivity .kde .windows (.kde (-1)) = .ok (.windows 1) := by
  refine ⟨kde_init_ok (-1) (by norm_num) (by norm_num), ?_, ?_⟩
  · show Except.ok (⟨1 + (-1 : ℚ)⟩ : IntermediateSensitivity) = Except.ok ⟨0⟩
    norm_num
  · norm_num [convert_sensitivity, Platform.to_intermediate, Platform.from_intermediate,
      KDEPlatform.to_intermediate, WindowsPlatform.from_intermediate,
      WindowsPlatform.tick_map, min_by, minScan, List.foldl,
      WindowsSensitivity.init, Except.bind, tick_dist, abs]

/-- C9: the tick table is strictly increasing in tick: a smaller tick has a
strictly smaller multiplier, and equal multipliers force equal ticks, so the
tick-to-multiplier mapping is injective. -/
theorem tick_map_strictly_increasing :
    ∀ p ∈ WindowsPlatform.tick_map, ∀ q ∈ WindowsPlatform.tick_map,
      (p.1 < q.1 → p.2 < q.2) ∧ (p.2 = q.2 → p.1 = q.1) := by
  intro p hp q hq
  exact pairwise_lt_of_mem tick_map_both_sorted hp hq

set_option maxHeartbeats 4000000 in
/-- C10: for every tick t in [1, 20], construction succeeds and the Windows
toNeutral succeeds, returning exactly the table entry for t: every legal tick
is a key of the table, so the dict lookup cannot fail. -/
theorem windows_to_intermediate_total (t : ℤ) (h1 : 1 ≤ t) (h2 : t ≤ 20) :
    ∃ q : ℚ, dict_get t WindowsPlatform.tick_map = some q
      ∧ (t, q) ∈ WindowsPlatform.tick_map
      ∧ (WindowsSensitivity.init t).bind WindowsPlatform.to_intermediate = .ok ⟨q⟩ := by
  interval_cases t <;>
    norm_num [dict_get, WindowsPlatform.tick_map, WindowsSensitivity.init,
      WindowsPlatform.to_intermediate, Except.bind]

theorem windows_to_intermediate_total_witness :
    ((1:ℤ) ≤ 10 ∧ (10:ℤ) ≤ 20) ∧
    (∃ q : ℚ, dict_get 10 WindowsPlatform.tick_map = some q
      ∧ ((10:ℤ), q) ∈ WindowsPlatform.tick_map
      ∧ (WindowsSensitivity.init 10).bind WindowsPlatform.to_intermediate = .ok ⟨q⟩) :=
  ⟨⟨by norm_num, by norm_num⟩, windows_to_intermediate_total 10 (by norm_num) (by norm_num)⟩

theorem tick_map_strictly_increasing_witness :
    ((1:ℤ), (1:ℚ)/32) ∈ WindowsPlatform.tick_map ∧
    ((2:ℤ), (1:ℚ)/16) ∈ WindowsPlatform.tick_map ∧
    ((((1:ℤ), (1:ℚ)/32).1 < ((2:ℤ), (1:ℚ)/16).1 →
        ((1:ℤ), (1:ℚ)/32).2 < ((2:ℤ), (1:ℚ)/16).2) ∧
      (((1:ℤ), (1:ℚ)/32).2 = ((2:ℤ), (1:ℚ)/16).2 →
        ((1:ℤ), (1:ℚ)/32).1 = ((2:ℤ), (1:ℚ)/16).1)) :=
  ⟨by norm_num [WindowsPlatform.tick_map], by norm_num [WindowsPlatform.tick_map],
    tick_map_strictly_increasing (1, 1/32) (by norm_num [WindowsPlatform.tick_map])
      (2, 1/16) (by norm_num [WindowsPlatform.tick_map])⟩
